import Mathlib

/-!
Verification of the Inventory-Pulse reorder decision engine and
pending-approval workflow.

The development shallowly embeds the core of the repository:

* `src/webhook/app.py` — the `PendingActionsManager` store operations
  (`store_pending_action`, `get_pending_action`, `update_action_status`)
  and the four webhook handlers (`approve_action`, `reject_action`,
  `approve_batch_action`, `reject_batch_action`);
* `src/policies/reorder_policy.py` — `ReorderPolicy.evaluate_reorder_need`
  together with the urgency classification of
  `_generate_evidence_summary`;
* `src/agent_main.py` — the orchestrator steps that gate decisions into
  the store (`_process_sku`, `_send_batch_approval_email`).

The modules `src/models/forecast.py` and `src/policies/eoq_optimizer.py`
are imported by `reorder_policy.py` but are not present in the sources;
their two functions are modelled from the specification, as marked in
their doc comments.

Machine reals (Python floats) are modelled by `ℚ`, timestamps by integers
(seconds for the store TTL, day numbers for the stockout date), and the
external collaborators (supplier, document pages, sheet) by explicit
outcome parameters plus a trace of invoked side effects.
-/

/-! ### Basic numeric helpers -/

/-- Truncation toward zero, as performed by the Python builtin `int()` on a
float (used for `int(days_until_stockout)` in `reorder_policy.py`). -/
def ratTrunc (q : ℚ) : ℤ :=
  if 0 ≤ q then ⌊q⌋ else ⌈q⌉

/-- Comparison `d <= c` where `d` is a possibly-infinite float modelled as
`Option ℚ` (`none` stands for `float(+inf)`): infinity is below no bound. -/
def infLe (d : Option ℚ) (c : ℚ) : Bool :=
  match d with
  | none => false
  | some x => decide (x ≤ c)

/-! ### Data model

Transactions, inventory rows and vendor rows are the dictionaries handed to
`ReorderPolicy.evaluate_reorder_need` by `agent_main.py`.  Optional fields
(`Option _`) model dictionary keys that the code reads with `.get(key,
default)` or probes with `in`. -/

/-- A transaction row: SKU, signed quantity (negative = consumption), date.
The date is carried for fidelity to the data model; the policy receives a
pre-scoped trailing window and never reads it. -/
structure Txn where
  sku : String
  quantity : ℚ
  date : ℤ
deriving DecidableEq, Repr

/-- An inventory row as assembled in `agent_main._process_sku`:
`sku`, `on_hand`, `reorder_point` always present, `reorder_quantity` read
by the policy with `.get('reorder_quantity', 10)`. -/
structure InventoryItem where
  sku : String
  on_hand : ℚ
  reorder_point : ℚ
  reorder_quantity : Option ℚ
deriving DecidableEq, Repr

/-- A vendor row as produced by `agent_main._get_vendor_data`:
`name`, `price_per_unit` (probed with `in` by the fallback branch of the
policy, hence optional), `holding_cost_percentage`, `order_cost`, and
`lead_time` (read with `.get('lead_time', 7)`). -/
structure Vendor where
  name : String
  price_per_unit : Option ℚ
  holding_cost_percentage : ℚ
  order_cost : ℚ
  lead_time : Option ℚ
deriving DecidableEq, Repr

/-- The vendor-shaped value selected by the optimizer or the zero-demand
fallback after `reorder_policy.py` has augmented it with the keys `eoq`
and `total_annual_cost` that the rest of `evaluate_reorder_need` reads. -/
structure SelectedVendor where
  name : String
  lead_time : Option ℚ
  eoq : ℚ
  total_annual_cost : ℚ
deriving DecidableEq, Repr

/-- The reorder decision dictionary built at the end of
`evaluate_reorder_need`.  `vendor` is `none` exactly in the
no-valid-vendor outcome (the source stores Python `None` there).
`urgency` is the tier chosen by the branch structure of
`_generate_evidence_summary` (the tier word embedded in the
`evidence_summary` string); `"NONE"` stands for the summary of the
no-action branch.  `stockout_date` is the day number
`now + int(days_until_stockout)` or `none` for the no-stockout case. -/
structure ReorderDecision where
  sku : String
  needs_reorder : Bool
  vendor : Option String
  qty : ℚ
  eoq : ℚ
  total_cost : ℚ
  days_until_stockout : Option ℚ
  stockout_date : Option ℤ
  urgency : String
deriving DecidableEq, Repr

/-! ### Forecast estimator (modelled from the spec) -/

/-- Modelled from the spec: `compute_daily_average` is imported from
`src/models/forecast.py`, which is absent from the sources.  Section 4.1:
`dailyAverage(transactions, sku) -> float ≥ 0`, the average over the
supplied 90-day trailing window; SKUs with no matching transactions yield
`0`; negative quantities are consumption.  The average is the total
consumption of the SKU divided by the window length. -/
def compute_daily_average (txns : List Txn) (sku : String) : ℚ :=
  let matching := txns.filter (fun t => t.sku = sku)
  let consumption := (matching.map (fun t => if t.quantity < 0 then -t.quantity else 0)).sum
  consumption / 90

/-- Modelled from the spec: `estimate_days_until_stockout` is imported from
`src/models/forecast.py`, which is absent from the sources.  Section 4.1:
if `dailyAverage <= 0` it returns `+infinity` (modelled `none`), otherwise
`onHand / dailyAverage`. -/
def estimate_days_until_stockout (on_hand avg_daily : ℚ) : Option ℚ :=
  if avg_daily ≤ 0 then none else some (on_hand / avg_daily)

/-! ### EOQ optimizer (modelled from the spec) -/

/-- Modelled from the spec: the EOQ formula of `src/policies/eoq_optimizer.py`,
which is absent from the sources.  Section 4.2:
`EOQ = sqrt(2 * annualDemand * orderCost / (holdingRate * unitPrice))`,
"rounded to a sane non-negative integer order quantity"; the rounding is
modelled as the integer square root of the floored radicand. -/
def vendor_eoq (annual_demand order_cost holding : ℚ) : ℚ :=
  (Nat.sqrt (⌊2 * annual_demand * order_cost / holding⌋.toNat) : ℚ)

/-- Modelled from the spec: the per-vendor total annual cost of
`src/policies/eoq_optimizer.py` (absent from the sources).  Section 4.2:
`purchaseCost = D * unitPrice`, `orderingCost = D/EOQ * orderCost`,
`holdingCost = EOQ/2 * holdingRate*unitPrice`, summed.  (Rational division
by an EOQ of zero yields zero, matching a zero ordering cost.) -/
def vendor_annual_cost (annual_demand price order_cost holding eoq : ℚ) : ℚ :=
  annual_demand * price + annual_demand / eoq * order_cost + eoq / 2 * holding

/-- A candidate of the vendor selection: the vendor augmented with its
unit price, EOQ and total annual cost. -/
def vendor_candidate (annual_demand : ℚ) (v : Vendor) : Option (SelectedVendor × ℚ) :=
  match v.price_per_unit with
  | none => none
  | some p =>
    if p ≤ 0 then none
    else
      let holding := v.holding_cost_percentage * p
      let eoq := vendor_eoq annual_demand v.order_cost holding
      some ({ name := v.name, lead_time := v.lead_time, eoq := eoq,
              total_annual_cost := vendor_annual_cost annual_demand p v.order_cost holding eoq }, p)

/-- Whether candidate `b` beats candidate `a`: smaller total annual cost,
ties broken by shorter lead time, then lexicographic vendor name
(section 4.2 determinism rule). -/
def better_candidate (b a : SelectedVendor) : Bool :=
  if b.total_annual_cost < a.total_annual_cost then true
  else if a.total_annual_cost < b.total_annual_cost then false
  else if b.lead_time.getD 7 < a.lead_time.getD 7 then true
  else if a.lead_time.getD 7 < b.lead_time.getD 7 then false
  else decide (b.name < a.name)

/-- Modelled from the spec: `select_best_vendor` is imported from
`src/policies/eoq_optimizer.py`, which is absent from the sources.
Section 4.2: select the vendor with minimum `totalAnnualCost`; return
`none` when the vendor list is empty or no vendor has usable pricing data.
For `annualDemand <= 0` the EOQ formula is undefined, and the caller in
`reorder_policy.py` (line 99) relies on a `None` result to enter its
zero-demand fallback, so the model returns `none` there. -/
def select_best_vendor (vendors : List Vendor) (annual_demand : ℚ) : Option SelectedVendor :=
  if annual_demand ≤ 0 then none
  else
    (vendors.filterMap (vendor_candidate annual_demand)).foldl
      (fun acc c =>
        match acc with
        | none => some c.1
        | some a => if better_candidate c.1 a then some c.1 else some a)
      none

/-! ### ReorderPolicy (`src/policies/reorder_policy.py`) -/

/-- The constructor configuration of `ReorderPolicy`
(`safety_margin_days`, default 7, and `min_order_qty`, default 1). -/
structure ReorderPolicyCfg where
  safety_margin_days : ℚ
  min_order_qty : ℚ
deriving DecidableEq, Repr

/-- The zero-demand fallback vendor scan of `evaluate_reorder_need`
(lines 102–110): walk the vendor list, keeping the first vendor carrying a
`price_per_unit` key that strictly lowers the best price seen so far
(initially infinite).  Returns the chosen vendor with its unit price. -/
def fallback_step (acc : Option (Vendor × ℚ)) (v : Vendor) : Option (Vendor × ℚ) :=
  match v.price_per_unit with
  | none => acc
  | some p =>
    match acc with
    | none => some (v, p)
    | some (w, q) => if p < q then some (v, p) else some (w, q)

/-- See `fallback_step`: the whole scan of lines 102–110. -/
def fallback_vendor (vendors : List Vendor) : Option (Vendor × ℚ) :=
  vendors.foldl fallback_step none

/-- The urgency tier chosen by the branch structure of
`ReorderPolicy._generate_evidence_summary` (lines 289–298): `URGENT` when
the stockout horizon is within the safety margin, `HIGH` when within lead
time plus safety margin, otherwise `MEDIUM`; the no-action branch is
reported as tier `NONE`. -/
def urgency_of (cfg : ReorderPolicyCfg) (days : Option ℚ) (lead_time : ℚ)
    (needs_reorder : Bool) : String :=
  if needs_reorder then
    if infLe days cfg.safety_margin_days then "URGENT"
    else if infLe days (lead_time + cfg.safety_margin_days) then "HIGH"
    else "MEDIUM"
  else "NONE"

/-- `ReorderPolicy.evaluate_reorder_need` (lines 75–231), with the current
wall-clock reading (`datetime.now()`, line 164) made an explicit day-number
parameter `now`.  An empty vendor list raises `ValueError` (`Except.error`);
every other outcome is a decision record. -/
def evaluate_reorder_need (cfg : ReorderPolicyCfg) (item : InventoryItem)
    (txns : List Txn) (vendors : List Vendor) (target_stock_days : ℚ) (now : ℤ) :
    Except String ReorderDecision :=
  let avg_daily := compute_daily_average txns item.sku
  let annual_demand := avg_daily * 365
  if vendors.isEmpty then .error "No vendors provided for evaluation"
  else
    let best₀ := select_best_vendor vendors annual_demand
    let best : Option SelectedVendor :=
      match best₀ with
      | some b => some b
      | none =>
        if avg_daily ≤ 0 ∧ item.on_hand ≤ item.reorder_point then
          (fallback_vendor vendors).map (fun vp =>
            let eoq := max cfg.min_order_qty (item.reorder_quantity.getD 10)
            { name := vp.1.name, lead_time := vp.1.lead_time, eoq := eoq,
              total_annual_cost := eoq * vp.2 })
        else none
    match best with
    | none =>
      .ok { sku := item.sku, needs_reorder := false, vendor := none, qty := 0,
            eoq := 0, total_cost := 0, days_until_stockout := none,
            stockout_date := none, urgency := "NONE" }
    | some b =>
      let days := estimate_days_until_stockout item.on_hand avg_daily
      let stockout_date := days.map (fun d => now + ratTrunc d)
      let lead_time := b.lead_time.getD 7
      let threshold := lead_time + cfg.safety_margin_days
      let needs : Bool :=
        if avg_daily ≤ 0 then decide (item.on_hand ≤ item.reorder_point)
        else infLe days threshold || decide (item.on_hand ≤ item.reorder_point)
      let target_stock := avg_daily * target_stock_days
      let qty := if needs then
          max b.eoq (max cfg.min_order_qty (max 0 (target_stock - item.on_hand)))
        else 0
      .ok { sku := item.sku, needs_reorder := needs, vendor := some b.name,
            qty := qty, eoq := b.eoq, total_cost := b.total_annual_cost,
            days_until_stockout := days, stockout_date := stockout_date,
            urgency := urgency_of cfg days lead_time needs }

/-! ### PendingActionsManager (`src/webhook/app.py`, lines 45–217)

The backing store (SQLite table keyed by token, or the JSON-document
fallback with identical observable semantics) is modelled as a partial map
from tokens to action records.  Timestamps are integer seconds. -/

/-- A stored pending action: the columns of the `pending_actions` table /
the fields of the JSON document entry.  `items` carries the line items of
a batch action (present in the entries `agent_main` stores for
`action_type = 'batch_reorder'`). -/
structure BatchItem where
  sku : String
  vendor : String
  quantity : ℚ
  total_cost : ℚ
  notion_page_id : String
deriving DecidableEq, Repr

/-- See `BatchItem`.  `status` is a free-form string because
`update_action_status` writes whatever string it is handed. -/
structure PendingAction where
  sku : String
  action_type : String
  vendor : String
  quantity : ℚ
  total_cost : ℚ
  rationale : String
  notion_page_id : String
  expires_at : ℤ
  status : String
  items : List BatchItem
deriving DecidableEq, Repr

/-- The `action_data` dictionary passed to `store_pending_action`
(no expiry, no status: both are added by the store). -/
structure ActionData where
  sku : String
  action_type : String
  vendor : String
  quantity : ℚ
  total_cost : ℚ
  rationale : String
  notion_page_id : String
  items : List BatchItem
deriving DecidableEq, Repr

/-- The pending-action store: a partial map from tokens to records. -/
def Store : Type := String → Option PendingAction

/-- The configured shared secret (`WEBHOOK_SECRET`, line 41). -/
def WEBHOOK_SECRET : String := "ed999b5c-aea7-44a8-b910-cae4b47cfb46"

/-- The fixed TTL of a pending action: 24 hours, in seconds
(`timedelta(hours=24)`, line 102). -/
def TTL : ℤ := 86400

/-- `PendingActionsManager.store_pending_action` (lines 98–147):
insert-or-replace the record under `token` with `expires_at = now + 24h`
and `status = 'pending'`; returns the success flag. -/
def store_pending_action (store : Store) (token : String) (d : ActionData)
    (now : ℤ) : Store × Bool :=
  (fun t => if t = token then
      some { sku := d.sku, action_type := d.action_type, vendor := d.vendor,
             quantity := d.quantity, total_cost := d.total_cost,
             rationale := d.rationale, notion_page_id := d.notion_page_id,
             expires_at := now + TTL, status := "pending", items := d.items }
    else store t,
   true)

/-- `PendingActionsManager.get_pending_action` (lines 149–183): the whole
body runs inside `try/except Exception: return None`, so a raising read
path (`fault = some e`) yields `none`; otherwise the record is returned
exactly when it exists, its status is `'pending'`, and `expires_at > now`
(strict, both backends). -/
def get_pending_action (store : Store) (token : String) (now : ℤ)
    (fault : Option String) : Option PendingAction :=
  match fault with
  | some _ => none
  | none =>
    match store token with
    | none => none
    | some a => if a.status = "pending" ∧ now < a.expires_at then some a else none

/-- `PendingActionsManager.update_action_status` (lines 185–217): an
unconditional `UPDATE ... SET status = ? WHERE token = ?` (or the JSON
equivalent); no check of the current status, no existence check, and the
return value is `True` even when no row matched. -/
def update_action_status (store : Store) (token : String) (st : String) :
    Store × Bool :=
  (fun t => if t = token then (store t).map (fun a => { a with status := st })
    else store t,
   true)

/-! ### Webhook handlers (`src/webhook/app.py`, lines 287–786)

The external collaborators are modelled by an outcome environment
`Collab`; each handler returns its HTTP status, a success flag, a short
body label, the resulting store, and the trace of collaborator side
effects it invoked, in order. -/

/-- One invoked side effect. -/
inductive Effect where
  | placeOrder (vendor sku : String) (qty : ℚ)
  | notionUpdate (pageId st : String)
  | sheetsUpdate (sku st : String)
  | transition (token st : String)
  | recompute (sku : String)
deriving DecidableEq, Repr

/-- The supplier order result dictionary (`order_id`, `delivery_date`; the
batch handler additionally reads `success` and `error`). -/
structure OrderResult where
  success : Bool
  order_id : Option String
  delivery_date : Option String
  error : Option String
deriving DecidableEq, Repr

/-- Outcomes of the external collaborators for a given request:
`place_order` yields either a result dictionary or a raised exception
message; the page/sheet updaters may raise (`true` = raises), which the
handlers catch and log without letting it steer control flow. -/
structure Collab where
  place_order : String → String → ℚ → Except String OrderResult
  notion_fails : String → Bool
  sheets_fails : String → Bool
deriving Inhabited

/-- A rendered handler outcome: HTTP-equivalent status, success flag,
a short label of the body, the store afterwards, and the effect trace. -/
structure HandlerResult where
  statusCode : ℕ
  ok : Bool
  body : String
  store : Store
  trace : List Effect

/-- `approve_action` (`GET /webhook/approve`, lines 287–380): secret check
(403), active-token lookup (404 on miss), then in order (1) place the
supplier order — a raised exception here reaches the handler-wide
`except` and yields the 500 error page with no further step executed —
(2) update the Notion page if the action carries a page id (its own
`try/except`: failure only logged), (3) update the sheet (likewise), (4)
`update_action_status(token, 'approved')`, then the success page. -/
def approve_action (secret token : String) (store : Store) (now : ℤ)
    (fault : Option String) (env : Collab) : HandlerResult :=
  if secret ≠ WEBHOOK_SECRET then
    { statusCode := 403, ok := false, body := "Invalid webhook secret",
      store := store, trace := [] }
  else
    match get_pending_action store token now fault with
    | none =>
      { statusCode := 404, ok := false,
        body := "Invalid or expired approval token",
        store := store, trace := [] }
    | some a =>
      match env.place_order a.vendor a.sku a.quantity with
      | .error e =>
        { statusCode := 500, ok := false,
          body := "Failed to process approval: " ++ e,
          store := store,
          trace := [.placeOrder a.vendor a.sku a.quantity] }
      | .ok _ =>
        let t₁ : List Effect := [.placeOrder a.vendor a.sku a.quantity]
        let t₂ := if a.notion_page_id ≠ "" then
            t₁ ++ [.notionUpdate a.notion_page_id "Ordered"] else t₁
        let t₃ := t₂ ++ [.sheetsUpdate a.sku "Ordered"]
        { statusCode := 200, ok := true, body := "approve",
          store := (update_action_status store token "approved").1,
          trace := t₃ ++ [.transition token "approved"] }

/-- `reject_action` (`GET /webhook/reject`, lines 382–491): secret check
(403), lookup (404), then best-effort Notion update (when a page id is
present), best-effort sheet update, `update_action_status(token,
'rejected')`, and the append of a recompute task for the SKU to
`demo/recompute_tasks.json` (its own `try/except`). -/
def reject_action (secret token : String) (store : Store) (now : ℤ)
    (fault : Option String) (_env : Collab) : HandlerResult :=
  if secret ≠ WEBHOOK_SECRET then
    { statusCode := 403, ok := false, body := "Invalid webhook secret",
      store := store, trace := [] }
  else
    match get_pending_action store token now fault with
    | none =>
      { statusCode := 404, ok := false,
        body := "Invalid or expired rejection token",
        store := store, trace := [] }
    | some a =>
      let t₁ : List Effect :=
        if a.notion_page_id ≠ "" then [.notionUpdate a.notion_page_id "Rejected"] else []
      let t₂ := t₁ ++ [.sheetsUpdate a.sku "Rejected"]
      { statusCode := 200, ok := true, body := "reject",
        store := (update_action_status store token "rejected").1,
        trace := t₂ ++ [.transition token "rejected", .recompute a.sku] }

/-- `approve_batch_action` (`GET /webhook/approve-batch`, lines 521–674).
After the secret check (whose error page is returned as a plain string,
hence with the default 200 status), the handler reads
`pending_actions.get_pending_action(token)` — but the module defines no
name `pending_actions` (the manager instance is `pending_manager`), so
every request that passes the secret check raises `NameError`, which the
handler-wide `try/except` converts into the generic error page, before
any lookup, order placement, or status update can happen. -/
def approve_batch_action (secret token : String) (store : Store) (_now : ℤ)
    (_fault : Option String) (_env : Collab) : HandlerResult :=
  if secret ≠ WEBHOOK_SECRET then
    { statusCode := 200, ok := false, body := "Invalid webhook secret",
      store := store, trace := [] }
  else
    { statusCode := 200, ok := false,
      body := "Error processing batch approval: name pending_actions is not defined",
      store := store, trace := [] }

/-- `reject_batch_action` (`GET /webhook/reject-batch`, lines 676–786).
Identical structure to `approve_batch_action`, including the reference to
the undefined module name `pending_actions`: after the secret check every
request raises `NameError` and yields the generic error page (status 200)
with no store access, no item updates, and no recompute notification.
(The unreachable loop body would mark items rejected and transition the
token, but — unlike the single-item `reject_action` — contains no
recompute-task write at all.) -/
def reject_batch_action (secret token : String) (store : Store) (_now : ℤ)
    (_fault : Option String) (_env : Collab) : HandlerResult :=
  if secret ≠ WEBHOOK_SECRET then
    { statusCode := 200, ok := false, body := "Invalid webhook secret",
      store := store, trace := [] }
  else
    { statusCode := 200, ok := false,
      body := "Error processing batch rejection: name pending_actions is not defined",
      store := store, trace := [] }

/-! ### Orchestrator (`src/agent_main.py`)

The parts of `InventoryAgent.run_cycle` that move decisions into the
pending-action store: `_process_sku` (lines 303–406) gates each SKU, and
`_send_batch_approval_email` (lines 596–681) aggregates the surviving
approval requests into one batch pending action and stores it. -/

/-- The approval-request dictionary `_process_sku` returns for batch
processing (lines 400–406): the SKU, the full reorder decision, and the
Notion page reference. -/
structure ApprovalRequest where
  sku : String
  decision : ReorderDecision
  notion_page_id : String
deriving DecidableEq, Repr

/-- `_process_sku` after the policy evaluation (lines 334–406): a SKU whose
decision has `needs_reorder` false yields no approval request (line 336),
a successful auto-order yields none either (line 390; `should_auto` is the
threshold-and-trust test of lines 375–378, `dry_run` the agent flag,
`order_ok` the supplier outcome), and every other reorder decision is
wrapped into an approval request for the batch. -/
def process_sku (d : ReorderDecision) (should_auto dry_run order_ok : Bool)
    (page : String) : Option ApprovalRequest :=
  if d.needs_reorder = false then none
  else if should_auto && !dry_run && order_ok then none
  else some { sku := d.sku, decision := d, notion_page_id := page }

/-- The `batch_action_data` dictionary of `_send_batch_approval_email`
(lines 627–644): sentinel SKU `BATCH`, kind `batch_reorder`, vendor
`MULTIPLE`, aggregate quantity and cost, and one line item per request
(the decision vendor is a name string whenever the request was gated
through `needs_reorder`; a missing one is rendered as the empty string). -/
def build_batch_action_data (reqs : List ApprovalRequest) : ActionData :=
  { sku := "BATCH", action_type := "batch_reorder", vendor := "MULTIPLE",
    quantity := (reqs.map (fun r => r.decision.qty)).sum,
    total_cost := (reqs.map (fun r => r.decision.total_cost)).sum,
    rationale := "Batch approval",
    notion_page_id := "",
    items := reqs.map (fun r =>
      { sku := r.sku, vendor := r.decision.vendor.getD "",
        quantity := r.decision.qty, total_cost := r.decision.total_cost,
        notion_page_id := r.notion_page_id }) }

/-- The per-SKU input of one `run_cycle` pass: the inventory row, its
transactions, and the auto-order circumstances of `_process_sku`. -/
structure SkuInput where
  item : InventoryItem
  txns : List Txn
  should_auto : Bool
  dry_run : Bool
  order_ok : Bool
  page : String

/-- The approval requests surviving one `run_cycle` pass (lines 207–219):
each SKU is evaluated by the policy — a per-SKU exception is caught and
the SKU skipped — and gated by `_process_sku`. -/
def run_cycle_requests (cfg : ReorderPolicyCfg) (vendors : List Vendor)
    (target_stock_days : ℚ) (now : ℤ) (inputs : List SkuInput) :
    List ApprovalRequest :=
  inputs.filterMap (fun i =>
    match evaluate_reorder_need cfg i.item i.txns vendors target_stock_days now with
    | .error _ => none
    | .ok d => process_sku d i.should_auto i.dry_run i.order_ok i.page)

/-- The store after one `run_cycle` pass (lines 221–231 with
`_send_batch_approval_email`): when at least one approval request
survived, the aggregated batch action is stored under a fresh token;
otherwise the store is untouched. -/
def run_cycle_store (cfg : ReorderPolicyCfg) (vendors : List Vendor)
    (target_stock_days : ℚ) (now store_now : ℤ) (inputs : List SkuInput)
    (store : Store) (batch_token : String) : Store :=
  let reqs := run_cycle_requests cfg vendors target_stock_days now inputs
  if reqs.isEmpty then store
  else (store_pending_action store batch_token (build_batch_action_data reqs) store_now).1

/-! ### Concrete fixtures used by witnesses and counterexamples -/

/-- A stored single-item pending action fixture. -/
def exAction : PendingAction :=
  { sku := "SKU-1", action_type := "reorder", vendor := "Acme Supplies",
    quantity := 5, total_cost := 125/2, rationale := "restock",
    notion_page_id := "pg1", expires_at := 100, status := "pending", items := [] }

/-- A one-entry store holding `exAction` under token `tok1`. -/
def exStore : Store := fun t => if t = "tok1" then some exAction else none

/-- The empty store. -/
def emptyStore : Store := fun _ => none

/-- Collaborators that all succeed. -/
def exCollab : Collab :=
  { place_order := fun _ _ _ =>
      .ok { success := true, order_id := some "ORD-1",
            delivery_date := some "2026-01-01", error := none },
    notion_fails := fun _ => false,
    sheets_fails := fun _ => false }

/-- Collaborators whose supplier call raises. -/
def exCollabFail : Collab :=
  { place_order := fun _ _ _ => .error "supplier unavailable",
    notion_fails := fun _ => false,
    sheets_fails := fun _ => false }

/-! ### C3: fetchActive semantics -/

/-- C3: `get_pending_action` (with a healthy read path) returns the stored
action exactly when it exists with status `pending` and `expires_at`
strictly greater than `now`; in every other case — absent token, terminal
status, or expiry, including the boundary `expires_at = now` — it returns
`none`, one indistinguishable outcome. -/
theorem get_pending_action_iff (store : Store) (token : String) (now : ℤ) :
    (∀ a : PendingAction,
      get_pending_action store token now none = some a ↔
        store token = some a ∧ a.status = "pending" ∧ now < a.expires_at) ∧
    (∀ a : PendingAction, store token = some a → a.expires_at = now →
      get_pending_action store token now none = none) := by
  constructor
  · intro a
    cases h : store token with
    | none => simp [get_pending_action, h]
    | some b =>
      simp only [get_pending_action, h]
      by_cases hc : b.status = "pending" ∧ now < b.expires_at
      · simp only [if_pos hc]
        constructor
        · rintro hba
          cases hba
          exact ⟨rfl, hc⟩
        · rintro ⟨hba, -⟩
          cases hba
          rfl
      · simp only [if_neg hc]
        constructor
        · rintro ⟨⟩
        · rintro ⟨hba, h2⟩
          cases hba
          exact absurd h2 hc
  · intro a ha hexp
    simp only [get_pending_action, ha]
    rw [if_neg]
    rintro ⟨-, hlt⟩
    rw [hexp] at hlt
    exact lt_irrefl now hlt

/-- Witness for C3: the boundary case — an action whose `expires_at` equals
the current time is not returned. -/
theorem get_pending_action_iff_witness :
    get_pending_action exStore "tok1" 100 none = none :=
  (get_pending_action_iff exStore "tok1" 100).2 exAction rfl rfl

/-! ### C4: transition writes only the status field, unconditionally -/

/-- C4: `update_action_status` reports success unconditionally (even for an
absent token), rewrites only the status field of the addressed record —
every other field, in particular `expires_at`, and every other token are
untouched — and performs no existence or current-status check: an absent
token stays absent and the reported result is still success. -/
theorem update_action_status_frame (store : Store) (token st : String) :
    (update_action_status store token st).2 = true ∧
    (∀ t, t ≠ token → (update_action_status store token st).1 t = store t) ∧
    (∀ a, store token = some a →
      (update_action_status store token st).1 token = some { a with status := st }) ∧
    (store token = none → (update_action_status store token st).1 token = none) := by
  refine ⟨rfl, ?_, ?_, ?_⟩
  · intro t ht
    unfold update_action_status
    simp [ht]
  · intro a ha
    unfold update_action_status
    simp [ha]
  · intro ha
    unfold update_action_status
    simp [ha]

/-- Witness for C4: transitioning the fixture store rewrites exactly the
status field of the addressed action. -/
theorem update_action_status_frame_witness :
    (update_action_status exStore "tok1" "approved").1 "tok1" =
      some { exAction with status := "approved" } :=
  (update_action_status_frame exStore "tok1" "approved").2.2.1 exAction rfl

/-! ### C10: a raising store read is reported as the 404 outcome -/

/-- C10: when the backing read path raises (`fault = some e`),
`get_pending_action` returns `none` instead of propagating, and the
approval endpoint renders exactly the outcome it renders for a token that
was never stored: same status (404 under the correct secret, never 500),
same body, same empty effect trace, and an untouched store. -/
theorem read_fault_indistinguishable (e secret token : String) (now : ℤ)
    (store store₂ : Store) (env : Collab) (h₂ : store₂ token = none) :
    get_pending_action store token now (some e) = none ∧
    (approve_action secret token store now (some e) env).statusCode =
      (approve_action secret token store₂ now none env).statusCode ∧
    (approve_action secret token store now (some e) env).ok =
      (approve_action secret token store₂ now none env).ok ∧
    (approve_action secret token store now (some e) env).body =
      (approve_action secret token store₂ now none env).body ∧
    (approve_action secret token store now (some e) env).trace =
      (approve_action secret token store₂ now none env).trace ∧
    (approve_action secret token store now (some e) env).store = store ∧
    (approve_action secret token store₂ now none env).store = store₂ ∧
    (secret = WEBHOOK_SECRET →
      (approve_action secret token store now (some e) env).statusCode = 404) := by
  have hget : get_pending_action store token now (some e) = none := rfl
  have hget₂ : get_pending_action store₂ token now none = none := by
    simp [get_pending_action, h₂]
  by_cases hs : secret = WEBHOOK_SECRET
  · simp [approve_action, hs, hget, hget₂]
  · simp [approve_action, hs, hget]

/-- Witness for C10: a faulty read over the fixture store is answered like
a lookup of a token absent from the empty store. -/
theorem read_fault_indistinguishable_witness :
    get_pending_action exStore "tok1" 0 (some "db locked") = none ∧
    (approve_action WEBHOOK_SECRET "tok1" exStore 0 (some "db locked") exCollab).statusCode =
      (approve_action WEBHOOK_SECRET "tok1" emptyStore 0 none exCollab).statusCode ∧
    (approve_action WEBHOOK_SECRET "tok1" exStore 0 (some "db locked") exCollab).ok =
      (approve_action WEBHOOK_SECRET "tok1" emptyStore 0 none exCollab).ok ∧
    (approve_action WEBHOOK_SECRET "tok1" exStore 0 (some "db locked") exCollab).body =
      (approve_action WEBHOOK_SECRET "tok1" emptyStore 0 none exCollab).body ∧
    (approve_action WEBHOOK_SECRET "tok1" exStore 0 (some "db locked") exCollab).trace =
      (approve_action WEBHOOK_SECRET "tok1" emptyStore 0 none exCollab).trace ∧
    (approve_action WEBHOOK_SECRET "tok1" exStore 0 (some "db locked") exCollab).store = exStore ∧
    (approve_action WEBHOOK_SECRET "tok1" emptyStore 0 none exCollab).store = emptyStore ∧
    (WEBHOOK_SECRET = WEBHOOK_SECRET →
      (approve_action WEBHOOK_SECRET "tok1" exStore 0 (some "db locked") exCollab).statusCode = 404) :=
  read_fault_indistinguishable "db locked" WEBHOOK_SECRET "tok1" 0 exStore emptyStore exCollab rfl

/-! ### C1: single-item approval ordering and failure policy -/

/-- C1: under the matching secret and an active pending action carrying a
page reference, the approval side effects run in the order supplier
order, document page, sheet, status transition — regardless of page or
sheet failures (`env.notion_fails`, `env.sheets_fails` are arbitrary),
whose exceptions the handler swallows without blocking the transition or
rolling back the order — while a raised supplier order yields the
500-class outcome, no transition, an untouched store, and the action
still retrievable as pending. -/
theorem approve_action_order_and_failure (store : Store) (token : String)
    (now : ℤ) (env : Collab) (a : PendingAction)
    (ha : get_pending_action store token now none = some a)
    (hp : a.notion_page_id ≠ "") :
    (∀ res, env.place_order a.vendor a.sku a.quantity = .ok res →
      (approve_action WEBHOOK_SECRET token store now none env).trace =
        [.placeOrder a.vendor a.sku a.quantity,
         .notionUpdate a.notion_page_id "Ordered",
         .sheetsUpdate a.sku "Ordered",
         .transition token "approved"] ∧
      (approve_action WEBHOOK_SECRET token store now none env).store =
        (update_action_status store token "approved").1 ∧
      (approve_action WEBHOOK_SECRET token store now none env).statusCode = 200) ∧
    (∀ e, env.place_order a.vendor a.sku a.quantity = .error e →
      (approve_action WEBHOOK_SECRET token store now none env).statusCode = 500 ∧
      (approve_action WEBHOOK_SECRET token store now none env).store = store ∧
      (approve_action WEBHOOK_SECRET token store now none env).trace =
        [.placeOrder a.vendor a.sku a.quantity] ∧
      get_pending_action
        ((approve_action WEBHOOK_SECRET token store now none env).store)
        token now none = some a) := by
  constructor
  · intro res hres
    simp [approve_action, ha, hres, hp]
  · intro e he
    simp [approve_action, ha, he]

/-- Witness for C1: the fixture action under succeeding collaborators runs
all four effects in order; under a raising supplier it yields 500, leaves
the store untouched and the action pending. -/
theorem approve_action_order_and_failure_witness :
    ((approve_action WEBHOOK_SECRET "tok1" exStore 0 none exCollab).trace =
        [.placeOrder "Acme Supplies" "SKU-1" 5,
         .notionUpdate "pg1" "Ordered",
         .sheetsUpdate "SKU-1" "Ordered",
         .transition "tok1" "approved"] ∧
      (approve_action WEBHOOK_SECRET "tok1" exStore 0 none exCollab).store =
        (update_action_status exStore "tok1" "approved").1 ∧
      (approve_action WEBHOOK_SECRET "tok1" exStore 0 none exCollab).statusCode = 200) ∧
    ((approve_action WEBHOOK_SECRET "tok1" exStore 0 none exCollabFail).statusCode = 500 ∧
      (approve_action WEBHOOK_SECRET "tok1" exStore 0 none exCollabFail).store = exStore ∧
      (approve_action WEBHOOK_SECRET "tok1" exStore 0 none exCollabFail).trace =
        [.placeOrder "Acme Supplies" "SKU-1" 5] ∧
      get_pending_action
        ((approve_action WEBHOOK_SECRET "tok1" exStore 0 none exCollabFail).store)
        "tok1" 0 none = some exAction) :=
  ⟨(approve_action_order_and_failure exStore "tok1" 0 exCollab exAction rfl
      (by decide)).1
      { success := true, order_id := some "ORD-1",
        delivery_date := some "2026-01-01", error := none } rfl,
   (approve_action_order_and_failure exStore "tok1" 0 exCollabFail exAction rfl
      (by decide)).2 "supplier unavailable" rfl⟩

/-! ### Batch fixtures -/

/-- A three-line batch fixture whose second item's supplier order raises. -/
def exBatchItems : List BatchItem :=
  [{ sku := "SKU-1", vendor := "Acme Supplies", quantity := 5, total_cost := 10,
     notion_page_id := "p1" },
   { sku := "SKU-2", vendor := "Acme Supplies", quantity := 3, total_cost := 6,
     notion_page_id := "p2" },
   { sku := "SKU-3", vendor := "Acme Supplies", quantity := 2, total_cost := 4,
     notion_page_id := "p3" }]

/-- An active batch-reorder pending action over `exBatchItems`. -/
def exBatchAction : PendingAction :=
  { sku := "BATCH", action_type := "batch_reorder", vendor := "MULTIPLE",
    quantity := 10, total_cost := 20, rationale := "batch",
    notion_page_id := "", expires_at := 100, status := "pending",
    items := exBatchItems }

/-- A one-entry store holding `exBatchAction` under token `btok`. -/
def exBatchStore : Store := fun t => if t = "btok" then some exBatchAction else none

/-- Collaborators for which exactly the order for `SKU-2` raises. -/
def exBatchEnv : Collab :=
  { place_order := fun _ sku _ =>
      if sku = "SKU-2" then .error "supplier down"
      else .ok { success := true, order_id := some "ORD-7",
                 delivery_date := none, error := none },
    notion_fails := fun _ => false,
    sheets_fails := fun _ => false }

/-! ### C6: bad-secret behaviour of the four endpoints -/

/-- Counterexample for C6: a batch approval carrying a wrong secret is
answered with the HTTP 200 error page — not a 403-class status — because
the handler returns `generate_error_html(...)` as a plain string. -/
theorem bad_secret_batch_not_403 :
    (approve_batch_action "wrong" "btok" exBatchStore 0 none exBatchEnv).statusCode = 200 ∧
    (approve_batch_action "wrong" "btok" exBatchStore 0 none exBatchEnv).statusCode ≠ 403 ∧
    (approve_batch_action "wrong" "btok" exBatchStore 0 none exBatchEnv).ok = false ∧
    "wrong" ≠ WEBHOOK_SECRET := by
  refine ⟨?_, by decide, ?_, by decide⟩ <;> rfl

/-- C6 (amended): on a secret mismatch, no endpoint touches the store and
no side effect runs; the single approve/reject endpoints answer 403,
while the batch endpoints render the authorization error page with the
default 200 status. -/
theorem bad_secret_rejected (secret token : String) (store : Store) (now : ℤ)
    (fault : Option String) (env : Collab) (hs : secret ≠ WEBHOOK_SECRET) :
    ((approve_action secret token store now fault env).statusCode = 403 ∧
     (approve_action secret token store now fault env).store = store ∧
     (approve_action secret token store now fault env).trace = []) ∧
    ((reject_action secret token store now fault env).statusCode = 403 ∧
     (reject_action secret token store now fault env).store = store ∧
     (reject_action secret token store now fault env).trace = []) ∧
    ((approve_batch_action secret token store now fault env).statusCode = 200 ∧
     (approve_batch_action secret token store now fault env).ok = false ∧
     (approve_batch_action secret token store now fault env).body = "Invalid webhook secret" ∧
     (approve_batch_action secret token store now fault env).store = store ∧
     (approve_batch_action secret token store now fault env).trace = []) ∧
    ((reject_batch_action secret token store now fault env).statusCode = 200 ∧
     (reject_batch_action secret token store now fault env).ok = false ∧
     (reject_batch_action secret token store now fault env).body = "Invalid webhook secret" ∧
     (reject_batch_action secret token store now fault env).store = store ∧
     (reject_batch_action secret token store now fault env).trace = []) := by
  simp [approve_action, reject_action, approve_batch_action, reject_batch_action, hs]

/-- Witness for C6 (amended): instantiated at the secret `"wrong"` over the
fixture store. -/
theorem bad_secret_rejected_witness :
    ((approve_action "wrong" "tok1" exStore 0 none exCollab).statusCode = 403 ∧
     (approve_action "wrong" "tok1" exStore 0 none exCollab).store = exStore ∧
     (approve_action "wrong" "tok1" exStore 0 none exCollab).trace = []) ∧
    ((reject_action "wrong" "tok1" exStore 0 none exCollab).statusCode = 403 ∧
     (reject_action "wrong" "tok1" exStore 0 none exCollab).store = exStore ∧
     (reject_action "wrong" "tok1" exStore 0 none exCollab).trace = []) ∧
    ((approve_batch_action "wrong" "tok1" exStore 0 none exCollab).statusCode = 200 ∧
     (approve_batch_action "wrong" "tok1" exStore 0 none exCollab).ok = false ∧
     (approve_batch_action "wrong" "tok1" exStore 0 none exCollab).body = "Invalid webhook secret" ∧
     (approve_batch_action "wrong" "tok1" exStore 0 none exCollab).store = exStore ∧
     (approve_batch_action "wrong" "tok1" exStore 0 none exCollab).trace = []) ∧
    ((reject_batch_action "wrong" "tok1" exStore 0 none exCollab).statusCode = 200 ∧
     (reject_batch_action "wrong" "tok1" exStore 0 none exCollab).ok = false ∧
     (reject_batch_action "wrong" "tok1" exStore 0 none exCollab).body = "Invalid webhook secret" ∧
     (reject_batch_action "wrong" "tok1" exStore 0 none exCollab).store = exStore ∧
     (reject_batch_action "wrong" "tok1" exStore 0 none exCollab).trace = []) :=
  bad_secret_rejected "wrong" "tok1" exStore 0 none exCollab (by decide)

/-! ### C2: the batch approval endpoint cannot process any item -/

/-- C2 (code bug): with the correct secret and an active three-item
batch-reorder action — of which item 2's order would raise — the batch
approval endpoint does not report two approved and one failed item and
does not transition the token: the handler references the undefined
module name `pending_actions` and dies with `NameError` before the
lookup, so it renders the generic error page, runs no side effect,
leaves the store untouched, and the token is still pending afterwards. -/
theorem approve_batch_name_error :
    get_pending_action exBatchStore "btok" 0 none = some exBatchAction ∧
    exBatchAction.action_type = "batch_reorder" ∧
    (approve_batch_action WEBHOOK_SECRET "btok" exBatchStore 0 none exBatchEnv).ok = false ∧
    (approve_batch_action WEBHOOK_SECRET "btok" exBatchStore 0 none exBatchEnv).body =
      "Error processing batch approval: name pending_actions is not defined" ∧
    (approve_batch_action WEBHOOK_SECRET "btok" exBatchStore 0 none exBatchEnv).trace = [] ∧
    (approve_batch_action WEBHOOK_SECRET "btok" exBatchStore 0 none exBatchEnv).store =
      exBatchStore ∧
    get_pending_action
      ((approve_batch_action WEBHOOK_SECRET "btok" exBatchStore 0 none exBatchEnv).store)
      "btok" 0 none = some exBatchAction :=
  ⟨rfl, rfl, rfl, rfl, rfl, rfl, rfl⟩

/-! ### C7: the batch rejection endpoint cannot process any item -/

/-- C7 (code bug): with the correct secret and an active batch-reorder
action, the batch rejection endpoint marks nothing rejected, issues no
recompute notification, and never transitions the token: it trips over
the same undefined name `pending_actions` as the batch approval handler
and renders the generic error page with the store untouched and an empty
effect trace. -/
theorem reject_batch_name_error :
    get_pending_action exBatchStore "btok" 0 none = some exBatchAction ∧
    exBatchAction.action_type = "batch_reorder" ∧
    (reject_batch_action WEBHOOK_SECRET "btok" exBatchStore 0 none exBatchEnv).ok = false ∧
    (reject_batch_action WEBHOOK_SECRET "btok" exBatchStore 0 none exBatchEnv).body =
      "Error processing batch rejection: name pending_actions is not defined" ∧
    (reject_batch_action WEBHOOK_SECRET "btok" exBatchStore 0 none exBatchEnv).trace = [] ∧
    (reject_batch_action WEBHOOK_SECRET "btok" exBatchStore 0 none exBatchEnv).store =
      exBatchStore ∧
    get_pending_action
      ((reject_batch_action WEBHOOK_SECRET "btok" exBatchStore 0 none exBatchEnv).store)
      "btok" 0 none = some exBatchAction :=
  ⟨rfl, rfl, rfl, rfl, rfl, rfl, rfl⟩

/-! ### C5: zero-demand items -/

theorem fallback_step_isSome (acc : Option (Vendor × ℚ)) (v : Vendor)
    (h : acc.isSome) : (fallback_step acc v).isSome := by
  unfold fallback_step
  cases hv : v.price_per_unit with
  | none => exact h
  | some p =>
    cases acc with
    | none => cases h
    | some wq =>
      obtain ⟨w, q⟩ := wq
      by_cases hpq : p < q <;> simp [hpq]

theorem foldl_fallback_isSome (l : List Vendor) (acc : Option (Vendor × ℚ))
    (h : acc.isSome) : (l.foldl fallback_step acc).isSome := by
  induction l generalizing acc with
  | nil => exact h
  | cons u l ih => exact ih _ (fallback_step_isSome acc u h)

theorem foldl_fallback_exists (l : List Vendor) (acc : Option (Vendor × ℚ))
    (h : ∃ v ∈ l, v.price_per_unit.isSome) :
    (l.foldl fallback_step acc).isSome := by
  induction l generalizing acc with
  | nil => obtain ⟨v, hv, -⟩ := h; cases hv
  | cons u l ih =>
    obtain ⟨v, hv, hp⟩ := h
    rcases List.mem_cons.mp hv with rfl | hvl
    · refine foldl_fallback_isSome l _ ?_
      unfold fallback_step
      cases hup : v.price_per_unit with
      | none => rw [hup] at hp; cases hp
      | some p =>
        cases acc with
        | none => rfl
        | some wq =>
          obtain ⟨w, q⟩ := wq
          by_cases hpq : p < q <;> simp [hpq]
    · exact ih _ ⟨v, hvl, hp⟩

theorem foldl_fallback_mem (l : List Vendor) (acc : Option (Vendor × ℚ))
    (v : Vendor) (p : ℚ) (h : l.foldl fallback_step acc = some (v, p)) :
    acc = some (v, p) ∨ (v ∈ l ∧ v.price_per_unit = some p) := by
  induction l generalizing acc with
  | nil => exact Or.inl h
  | cons u l ih =>
    rcases ih _ h with hstep | ⟨hmem, hp⟩
    · cases hup : u.price_per_unit with
      | none =>
        simp only [fallback_step, hup] at hstep
        exact Or.inl hstep
      | some q₀ =>
        cases acc with
        | none =>
          simp only [fallback_step, hup] at hstep
          cases hstep
          exact Or.inr ⟨List.mem_cons_self _ _, hup⟩
        | some wq =>
          obtain ⟨w, q⟩ := wq
          simp only [fallback_step, hup] at hstep
          by_cases hpq : q₀ < q
          · rw [if_pos hpq] at hstep
            cases hstep
            exact Or.inr ⟨List.mem_cons_self _ _, hup⟩
          · rw [if_neg hpq] at hstep
            exact Or.inl hstep
    · exact Or.inr ⟨List.mem_cons_of_mem u hmem, hp⟩

theorem foldl_fallback_min (l : List Vendor) (acc : Option (Vendor × ℚ))
    (v : Vendor) (p : ℚ) (h : l.foldl fallback_step acc = some (v, p)) :
    (∀ w q, acc = some (w, q) → p ≤ q) ∧
    (∀ u ∈ l, ∀ q, u.price_per_unit = some q → p ≤ q) := by
  induction l generalizing acc with
  | nil =>
    refine ⟨fun w q hacc => ?_, fun u hu => absurd hu (List.not_mem_nil u)⟩
    rw [hacc] at h
    cases h
    exact le_refl p
  | cons u l ih =>
    obtain ⟨ihacc, ihl⟩ := ih _ h
    constructor
    · intro w q hacc
      subst hacc
      cases hup : u.price_per_unit with
      | none =>
        refine ihacc w q ?_
        simp only [fallback_step, hup]
      | some q₀ =>
        simp only [fallback_step, hup] at ihacc
        by_cases hpq : q₀ < q
        · rw [if_pos hpq] at ihacc
          exact le_trans (ihacc u q₀ rfl) (le_of_lt hpq)
        · rw [if_neg hpq] at ihacc
          exact ihacc w q rfl
    · intro x hx q hxq
      rcases List.mem_cons.mp hx with rfl | hxl
      · cases acc with
        | none =>
          simp only [fallback_step, hxq] at ihacc
          exact ihacc x q rfl
        | some wq =>
          obtain ⟨w, r⟩ := wq
          simp only [fallback_step, hxq] at ihacc
          by_cases hpq : q < r
          · rw [if_pos hpq] at ihacc
            exact ihacc x q rfl
          · rw [if_neg hpq] at ihacc
            exact le_trans (ihacc w r rfl) (le_of_not_lt hpq)
      · exact ihl x hxl q hxq

/-- C5: for a zero-demand SKU (no matching consumption), given at least one
vendor with pricing data, the reorder decision triggers exactly on
`on_hand ≤ reorder_point`; when triggered, the chosen vendor carries the
minimal unit price among priced vendors, the EOQ is
`max(min_order_qty, reorder_quantity or 10)`, the total cost is that EOQ
times the chosen unit price, the urgency tier is `MEDIUM`, and no
stockout date is predicted. -/
theorem zero_demand_policy (cfg : ReorderPolicyCfg) (item : InventoryItem)
    (txns : List Txn) (vendors : List Vendor) (tsd : ℚ) (now : ℤ)
    (havg : compute_daily_average txns item.sku = 0)
    (hne : vendors ≠ [])
    (hpriced : ∃ v ∈ vendors, v.price_per_unit.isSome) :
    ∃ d, evaluate_reorder_need cfg item txns vendors tsd now = .ok d ∧
      (d.needs_reorder = true ↔ item.on_hand ≤ item.reorder_point) ∧
      (item.on_hand ≤ item.reorder_point →
        ∃ v p, v ∈ vendors ∧ v.price_per_unit = some p ∧
          d.vendor = some v.name ∧
          (∀ u ∈ vendors, ∀ q, u.price_per_unit = some q → p ≤ q) ∧
          d.eoq = max cfg.min_order_qty (item.reorder_quantity.getD 10) ∧
          d.total_cost = d.eoq * p ∧
          d.urgency = "MEDIUM" ∧
          d.stockout_date = none) := by
  have hJe : vendors.isEmpty = false := by
    cases vendors with
    | nil => exact absurd rfl hne
    | cons a l => rfl
  have hsel : select_best_vendor vendors 0 = none := by
    norm_num [select_best_vendor]
  by_cases hrp : item.on_hand ≤ item.reorder_point
  · have hfbs := foldl_fallback_exists vendors none hpriced
    obtain ⟨vp, hfb⟩ := Option.isSome_iff_exists.mp hfbs
    obtain ⟨v, p⟩ := vp
    have hfb' : fallback_vendor vendors = some (v, p) := hfb
    rcases foldl_fallback_mem vendors none v p hfb with hnone | ⟨hvmem, hvp⟩
    · cases hnone
    obtain ⟨-, hmin⟩ := foldl_fallback_min vendors none v p hfb
    refine ⟨{ sku := item.sku
              needs_reorder := true
              vendor := some v.name
              qty := max (max cfg.min_order_qty (item.reorder_quantity.getD 10))
                         (max cfg.min_order_qty (max 0 (0 * tsd - item.on_hand)))
              eoq := max cfg.min_order_qty (item.reorder_quantity.getD 10)
              total_cost := max cfg.min_order_qty (item.reorder_quantity.getD 10) * p
              days_until_stockout := none
              stockout_date := none
              urgency := "MEDIUM" }, ?_, ?_, ?_⟩
    · simp [evaluate_reorder_need, havg, hJe, hsel, hfb',
        estimate_days_until_stockout, urgency_of, infLe, hrp]
    · simp [hrp]
    · intro _
      exact ⟨v, p, hvmem, hvp, rfl, hmin, rfl, rfl, rfl, rfl⟩
  · refine ⟨{ sku := item.sku
              needs_reorder := false
              vendor := none
              qty := 0
              eoq := 0
              total_cost := 0
              days_until_stockout := none
              stockout_date := none
              urgency := "NONE" }, ?_, ?_, ?_⟩
    · simp [evaluate_reorder_need, havg, hJe, hsel, hrp]
    · simp [hrp]
    · intro h
      exact absurd h hrp

/-- Default policy configuration (safety margin 7, minimum order 1). -/
def exCfg : ReorderPolicyCfg := { safety_margin_days := 7, min_order_qty := 1 }

/-- A zero-demand inventory fixture: `on_hand = 3`, `reorder_point = 10`. -/
def exZeroItem : InventoryItem :=
  { sku := "ZED-1", on_hand := 3, reorder_point := 10, reorder_quantity := some 40 }

/-- Two priced vendors; the second has the lower unit price. -/
def exZeroVendors : List Vendor :=
  [{ name := "Acme Supplies", price_per_unit := some (25/2),
     holding_cost_percentage := 1/5, order_cost := 50, lead_time := some 7 },
   { name := "Budget Components", price_per_unit := some (199/20),
     holding_cost_percentage := 3/10, order_cost := 45, lead_time := some 12 }]

/-- Witness for C5: scenario 1 of the spec (`on_hand = 3 ≤ reorder_point =
10`, zero demand) instantiated on the fixture vendors. -/
theorem zero_demand_policy_witness :
    ∃ d, evaluate_reorder_need exCfg exZeroItem [] exZeroVendors 30 0 = .ok d ∧
      (d.needs_reorder = true ↔ exZeroItem.on_hand ≤ exZeroItem.reorder_point) ∧
      (exZeroItem.on_hand ≤ exZeroItem.reorder_point →
        ∃ v p, v ∈ exZeroVendors ∧ v.price_per_unit = some p ∧
          d.vendor = some v.name ∧
          (∀ u ∈ exZeroVendors, ∀ q, u.price_per_unit = some q → p ≤ q) ∧
          d.eoq = max exCfg.min_order_qty (exZeroItem.reorder_quantity.getD 10) ∧
          d.total_cost = d.eoq * p ∧
          d.urgency = "MEDIUM" ∧
          d.stockout_date = none) :=
  zero_demand_policy exCfg exZeroItem [] exZeroVendors 30 0
    (by norm_num [compute_daily_average])
    (by decide)
    (by decide)

deriving instance DecidableEq for Except

/-! ### C8: determinism of the policy evaluation -/

/-- A positive-demand fixture: 90 units consumed over the window. -/
def exPosItem : InventoryItem :=
  { sku := "WID-1", on_hand := 25, reorder_point := 50, reorder_quantity := some 40 }

/-- See `exPosItem`. -/
def exPosTxns : List Txn := [{ sku := "WID-1", quantity := -90, date := 0 }]

/-- See `exPosItem`. -/
def exPosVendors : List Vendor :=
  [{ name := "Acme Supplies", price_per_unit := some 1,
     holding_cost_percentage := 2, order_cost := 1/730, lead_time := some 7 }]

/-- Evaluation of the positive-demand fixture at an arbitrary clock
reading: every field is clock-independent except `stockout_date`. -/
theorem eval_posdemand_record (now : ℤ) :
    evaluate_reorder_need exCfg exPosItem exPosTxns exPosVendors 30 now =
      .ok { sku := "WID-1"
            needs_reorder := true
            vendor := some "Acme Supplies"
            qty := 5
            eoq := 0
            total_cost := 365
            days_until_stockout := some 25
            stockout_date := some (now + 25)
            urgency := "MEDIUM" } := by
  simp [evaluate_reorder_need, compute_daily_average, estimate_days_until_stockout,
    select_best_vendor, vendor_candidate, vendor_eoq, vendor_annual_cost,
    urgency_of, infLe, ratTrunc, exCfg, exPosItem, exPosTxns, exPosVendors]
  norm_num

/-- Counterexample for C8: the evaluation reads the wall clock for the
predicted stockout date, so the same item, transactions and vendor
snapshot evaluated on two different days yield different decision
records — the evaluation is not a pure function of the listed inputs. -/
theorem eval_not_time_invariant :
    evaluate_reorder_need exCfg exPosItem exPosTxns exPosVendors 30 0 ≠
      evaluate_reorder_need exCfg exPosItem exPosTxns exPosVendors 30 1 := by
  intro h
  rw [eval_posdemand_record 0, eval_posdemand_record 1] at h
  simp at h

/-- C8 (amended): the evaluation is deterministic in its inputs plus the
clock reading, and the clock influences only the `stockout_date` field:
projecting that field away yields equal records for any two evaluation
times, and for zero-demand inputs (where no stockout date is predicted)
the full records agree. -/
theorem eval_time_dependence (cfg : ReorderPolicyCfg) (item : InventoryItem)
    (txns : List Txn) (vendors : List Vendor) (tsd : ℚ) (now₁ now₂ : ℤ) :
    (evaluate_reorder_need cfg item txns vendors tsd now₁).map
        (fun d => { d with stockout_date := none }) =
      (evaluate_reorder_need cfg item txns vendors tsd now₂).map
        (fun d => { d with stockout_date := none }) ∧
    (compute_daily_average txns item.sku ≤ 0 →
      evaluate_reorder_need cfg item txns vendors tsd now₁ =
        evaluate_reorder_need cfg item txns vendors tsd now₂) := by
  constructor
  · unfold evaluate_reorder_need
    by_cases hJ : vendors.isEmpty
    · rw [if_pos hJ, if_pos hJ]
    · rw [if_neg hJ, if_neg hJ]
      dsimp only
      cases hsel : select_best_vendor vendors (compute_daily_average txns item.sku * 365) with
      | some b => rfl
      | none =>
        by_cases hc : compute_daily_average txns item.sku ≤ 0 ∧
            item.on_hand ≤ item.reorder_point
        · rw [if_pos hc]
          cases hfb : fallback_vendor vendors with
          | none => rfl
          | some vp => rfl
        · rw [if_neg hc]
  · intro havg
    unfold evaluate_reorder_need
    by_cases hJ : vendors.isEmpty
    · rw [if_pos hJ, if_pos hJ]
    · rw [if_neg hJ, if_neg hJ]
      dsimp only
      cases hsel : select_best_vendor vendors (compute_daily_average txns item.sku * 365) with
      | some b => simp [estimate_days_until_stockout, havg]
      | none =>
        by_cases hc : compute_daily_average txns item.sku ≤ 0 ∧
            item.on_hand ≤ item.reorder_point
        · rw [if_pos hc]
          cases hfb : fallback_vendor vendors with
          | none => rfl
          | some vp => simp [estimate_days_until_stockout, havg]
        · rw [if_neg hc]

/-- Witness for C8 (amended): on the zero-demand fixture, evaluations at
two different clock readings coincide entirely. -/
theorem eval_time_dependence_witness :
    evaluate_reorder_need exCfg exZeroItem [] exZeroVendors 30 3 =
      evaluate_reorder_need exCfg exZeroItem [] exZeroVendors 30 8 :=
  (eval_time_dependence exCfg exZeroItem [] exZeroVendors 30 3 8).2
    (by norm_num [compute_daily_average])

/-! ### C9: only reorder decisions enter the store, with non-negative data -/

theorem compute_daily_average_nonneg (txns : List Txn) (sku : String) :
    0 ≤ compute_daily_average txns sku := by
  unfold compute_daily_average
  refine div_nonneg ?_ (by norm_num)
  refine List.sum_nonneg ?_
  intro x hx
  simp only [List.mem_map] at hx
  obtain ⟨t, -, rfl⟩ := hx
  by_cases h : t.quantity < 0
  · simp only [if_pos h]
    linarith
  · simp only [if_neg h]
    exact le_refl 0

theorem foldl_pick_mem (l : List (SelectedVendor × ℚ)) (acc : Option SelectedVendor)
    (b : SelectedVendor)
    (h : l.foldl
      (fun acc c =>
        match acc with
        | none => some c.1
        | some a => if better_candidate c.1 a then some c.1 else some a) acc = some b) :
    acc = some b ∨ ∃ c ∈ l, c.1 = b := by
  induction l generalizing acc with
  | nil => exact Or.inl h
  | cons u l ih =>
    rcases ih _ h with hstep | ⟨c, hc, rfl⟩
    · cases acc with
      | none =>
        cases hstep
        exact Or.inr ⟨u, List.mem_cons_self _ _, rfl⟩
      | some a =>
        by_cases hb : better_candidate u.1 a
        · simp only [hb, if_true] at hstep
          cases hstep
          exact Or.inr ⟨u, List.mem_cons_self _ _, rfl⟩
        · simp only [hb, if_false] at hstep
          exact Or.inl hstep
    · exact Or.inr ⟨c, List.mem_cons_of_mem u hc, rfl⟩

theorem select_best_vendor_mem (vendors : List Vendor) (D : ℚ) (b : SelectedVendor)
    (h : select_best_vendor vendors D = some b) :
    ∃ v ∈ vendors, ∃ p, vendor_candidate D v = some (b, p) := by
  unfold select_best_vendor at h
  by_cases hD : D ≤ 0
  · rw [if_pos hD] at h
    cases h
  · rw [if_neg hD] at h
    rcases foldl_pick_mem _ none b h with hnone | ⟨c, hc, rfl⟩
    · cases hnone
    · obtain ⟨v, hv, hcand⟩ := List.mem_filterMap.mp hc
      exact ⟨v, hv, c.2, by rwa [← Prod.mk.eta (p := c)] at hcand⟩

theorem vendor_candidate_nonneg (D : ℚ) (v : Vendor) (b : SelectedVendor) (p : ℚ)
    (hD : 0 ≤ D) (hhold : 0 ≤ v.holding_cost_percentage) (hord : 0 ≤ v.order_cost)
    (h : vendor_candidate D v = some (b, p)) :
    0 ≤ b.total_annual_cost ∧ 0 ≤ b.eoq := by
  unfold vendor_candidate at h
  cases hp : v.price_per_unit with
  | none => rw [hp] at h; cases h
  | some q =>
    rw [hp] at h
    dsimp only at h
    by_cases hq : q ≤ 0
    · rw [if_pos hq] at h
      cases h
    · rw [if_neg hq] at h
      simp only [Option.some.injEq, Prod.mk.injEq] at h
      obtain ⟨rfl, rfl⟩ := h
      have hq' : 0 ≤ q := le_of_not_le hq
      constructor
      · unfold vendor_annual_cost
        have h₁ : 0 ≤ D * q := mul_nonneg hD hq'
        have heoq : (0 : ℚ) ≤ vendor_eoq D v.order_cost (v.holding_cost_percentage * q) := by
          unfold vendor_eoq
          positivity
        have h₂ : 0 ≤ D / vendor_eoq D v.order_cost (v.holding_cost_percentage * q) * v.order_cost :=
          mul_nonneg (div_nonneg hD heoq) hord
        have h₃ : 0 ≤ vendor_eoq D v.order_cost (v.holding_cost_percentage * q) / 2 *
            (v.holding_cost_percentage * q) :=
          mul_nonneg (div_nonneg heoq (by norm_num)) (mul_nonneg hhold hq')
        linarith
      · unfold vendor_eoq
        positivity

theorem zero_le_max_triple (a b c : ℚ) : 0 ≤ max a (max b (max 0 c)) :=
  le_trans (le_max_left 0 c) (le_trans (le_max_right b _) (le_max_right a _))

theorem ite_qty_nonneg (c : Prop) [Decidable c] (a b x : ℚ) :
    0 ≤ if c then max a (max b (max 0 x)) else 0 := by
  split
  · exact zero_le_max_triple a b x
  · exact le_refl 0

set_option maxHeartbeats 2000000 in
/-- Every decision the policy returns carries a non-negative recommended
quantity and a non-negative total cost, provided the vendor snapshot's
prices, holding rates and order costs are non-negative and the configured
minimum order quantity is non-negative. -/
theorem decision_nonneg (cfg : ReorderPolicyCfg) (item : InventoryItem)
    (txns : List Txn) (vendors : List Vendor) (tsd : ℚ) (now : ℤ)
    (d : ReorderDecision)
    (hmoq : 0 ≤ cfg.min_order_qty)
    (hv : ∀ v ∈ vendors, (∀ p, v.price_per_unit = some p → 0 ≤ p) ∧
      0 ≤ v.holding_cost_percentage ∧ 0 ≤ v.order_cost)
    (h : evaluate_reorder_need cfg item txns vendors tsd now = .ok d) :
    0 ≤ d.qty ∧ 0 ≤ d.total_cost := by
  unfold evaluate_reorder_need at h
  by_cases hJ : vendors.isEmpty
  · rw [if_pos hJ] at h
    cases h
  · rw [if_neg hJ] at h
    dsimp only at h
    cases hsel : select_best_vendor vendors (compute_daily_average txns item.sku * 365) with
    | some b =>
      rw [hsel] at h
      dsimp only at h
      cases h
      have hD : 0 ≤ compute_daily_average txns item.sku * 365 :=
        mul_nonneg (compute_daily_average_nonneg txns item.sku) (by norm_num)
      obtain ⟨v, hvm, p, hcand⟩ := select_best_vendor_mem vendors _ b hsel
      obtain ⟨hv1, hv2, hv3⟩ := hv v hvm
      obtain ⟨hcost, heoq⟩ := vendor_candidate_nonneg _ v b p hD hv2 hv3 hcand
      refine ⟨?_, hcost⟩
      exact ite_qty_nonneg _ _ _ _
    | none =>
      rw [hsel] at h
      by_cases hc : compute_daily_average txns item.sku ≤ 0 ∧
          item.on_hand ≤ item.reorder_point
      · rw [if_pos hc] at h
        cases hfb : fallback_vendor vendors with
        | none =>
          rw [hfb] at h
          cases h
          exact ⟨le_refl 0, le_refl 0⟩
        | some vp =>
          obtain ⟨w, p⟩ := vp
          rw [hfb] at h
          dsimp only at h
          cases h
          rcases foldl_fallback_mem vendors none w p hfb with hno | ⟨hwm, hwp⟩
          · cases hno
          have hp : 0 ≤ p := (hv w hwm).1 p hwp
          have hE : 0 ≤ max cfg.min_order_qty (item.reorder_quantity.getD 10) :=
            le_trans hmoq (le_max_left _ _)
          exact ⟨ite_qty_nonneg _ _ _ _, mul_nonneg hE hp⟩
      · rw [if_neg hc] at h
        cases h
        exact ⟨le_refl 0, le_refl 0⟩

theorem process_sku_some (d : ReorderDecision) (a b c : Bool) (page : String)
    (r : ApprovalRequest) (h : process_sku d a b c page = some r) :
    d.needs_reorder = true ∧ r.decision = d := by
  unfold process_sku at h
  by_cases h1 : d.needs_reorder = false
  · rw [if_pos h1] at h
    cases h
  · rw [if_neg h1] at h
    have ht : d.needs_reorder = true := by
      cases hd : d.needs_reorder
      · exact absurd hd h1
      · rfl
    by_cases h2 : (a && !b && c) = true
    · rw [if_pos h2] at h
      cases h
    · rw [if_neg h2] at h
      cases h
      exact ⟨ht, rfl⟩

theorem run_cycle_requests_mem (cfg : ReorderPolicyCfg) (vendors : List Vendor)
    (tsd : ℚ) (now : ℤ) (inputs : List SkuInput) (r : ApprovalRequest)
    (h : r ∈ run_cycle_requests cfg vendors tsd now inputs) :
    ∃ i ∈ inputs, ∃ d,
      evaluate_reorder_need cfg i.item i.txns vendors tsd now = .ok d ∧
      d.needs_reorder = true ∧ r.decision = d := by
  unfold run_cycle_requests at h
  obtain ⟨i, hi, hsome⟩ := List.mem_filterMap.mp h
  cases he : evaluate_reorder_need cfg i.item i.txns vendors tsd now with
  | error e =>
    rw [he] at hsome
    cases hsome
  | ok d =>
    rw [he] at hsome
    dsimp only at hsome
    obtain ⟨h1, h2⟩ := process_sku_some d _ _ _ _ r hsome
    exact ⟨i, hi, d, he, h1, h2⟩

/-- C9: the orchestrator stores a pending action only when at least one
decision needed a reorder; every approval request (hence every stored
batch line item) stems from a decision with `needs_reorder = true`, and —
under non-negative vendor pricing data and configuration — the stored
aggregate quantity and total cost, and those of every line item, are
non-negative.  When no request survives, the store is untouched. -/
theorem run_cycle_store_only_reorders (cfg : ReorderPolicyCfg)
    (vendors : List Vendor) (tsd : ℚ) (now store_now : ℤ)
    (inputs : List SkuInput) (store : Store) (btok : String)
    (hmoq : 0 ≤ cfg.min_order_qty)
    (hv : ∀ v ∈ vendors, (∀ p, v.price_per_unit = some p → 0 ≤ p) ∧
      0 ≤ v.holding_cost_percentage ∧ 0 ≤ v.order_cost) :
    (∀ r ∈ run_cycle_requests cfg vendors tsd now inputs,
      r.decision.needs_reorder = true ∧ 0 ≤ r.decision.qty ∧ 0 ≤ r.decision.total_cost) ∧
    0 ≤ (build_batch_action_data (run_cycle_requests cfg vendors tsd now inputs)).quantity ∧
    0 ≤ (build_batch_action_data (run_cycle_requests cfg vendors tsd now inputs)).total_cost ∧
    (∀ it ∈ (build_batch_action_data (run_cycle_requests cfg vendors tsd now inputs)).items,
      0 ≤ it.quantity ∧ 0 ≤ it.total_cost) ∧
    (run_cycle_requests cfg vendors tsd now inputs = [] →
      run_cycle_store cfg vendors tsd now store_now inputs store btok = store) ∧
    (run_cycle_requests cfg vendors tsd now inputs ≠ [] →
      run_cycle_store cfg vendors tsd now store_now inputs store btok =
        (store_pending_action store btok
          (build_batch_action_data (run_cycle_requests cfg vendors tsd now inputs))
          store_now).1) := by
  have hreq : ∀ r ∈ run_cycle_requests cfg vendors tsd now inputs,
      r.decision.needs_reorder = true ∧ 0 ≤ r.decision.qty ∧ 0 ≤ r.decision.total_cost := by
    intro r hr
    obtain ⟨i, hi, d, he, h1, h2⟩ := run_cycle_requests_mem cfg vendors tsd now inputs r hr
    obtain ⟨hq, hc⟩ := decision_nonneg cfg i.item i.txns vendors tsd now d hmoq hv he
    rw [h2]
    exact ⟨h1, hq, hc⟩
  refine ⟨hreq, ?_, ?_, ?_, ?_, ?_⟩
  · unfold build_batch_action_data
    dsimp only
    refine List.sum_nonneg ?_
    intro x hx
    obtain ⟨r, hr, rfl⟩ := List.mem_map.mp hx
    exact (hreq r hr).2.1
  · unfold build_batch_action_data
    dsimp only
    refine List.sum_nonneg ?_
    intro x hx
    obtain ⟨r, hr, rfl⟩ := List.mem_map.mp hx
    exact (hreq r hr).2.2
  · intro it hit
    unfold build_batch_action_data at hit
    dsimp only at hit
    obtain ⟨r, hr, rfl⟩ := List.mem_map.mp hit
    exact ⟨(hreq r hr).2.1, (hreq r hr).2.2⟩
  · intro hnil
    unfold run_cycle_store
    simp [hnil]
  · intro hnil
    unfold run_cycle_store
    have hne : (run_cycle_requests cfg vendors tsd now inputs).isEmpty = false := by
      cases hq : run_cycle_requests cfg vendors tsd now inputs with
      | nil => exact absurd hq hnil
      | cons a l => rfl
    simp [hne]

/-- A one-SKU cycle input over the positive-demand fixture, in dry-run
mode (so the decision goes to the approval batch). -/
def exInputs : List SkuInput :=
  [{ item := exPosItem, txns := exPosTxns, should_auto := false,
     dry_run := true, order_ok := false, page := "pg9" }]

/-- Witness for C9: the single-input cycle over the fixture data. -/
theorem run_cycle_store_only_reorders_witness :
    (∀ r ∈ run_cycle_requests exCfg exPosVendors 30 0 exInputs,
      r.decision.needs_reorder = true ∧ 0 ≤ r.decision.qty ∧ 0 ≤ r.decision.total_cost) ∧
    0 ≤ (build_batch_action_data (run_cycle_requests exCfg exPosVendors 30 0 exInputs)).quantity ∧
    0 ≤ (build_batch_action_data (run_cycle_requests exCfg exPosVendors 30 0 exInputs)).total_cost ∧
    (∀ it ∈ (build_batch_action_data (run_cycle_requests exCfg exPosVendors 30 0 exInputs)).items,
      0 ≤ it.quantity ∧ 0 ≤ it.total_cost) ∧
    (run_cycle_requests exCfg exPosVendors 30 0 exInputs = [] →
      run_cycle_store exCfg exPosVendors 30 0 50 exInputs exStore "bb" = exStore) ∧
    (run_cycle_requests exCfg exPosVendors 30 0 exInputs ≠ [] →
      run_cycle_store exCfg exPosVendors 30 0 50 exInputs exStore "bb" =
        (store_pending_action exStore "bb"
          (build_batch_action_data (run_cycle_requests exCfg exPosVendors 30 0 exInputs))
          50).1) :=
  run_cycle_store_only_reorders exCfg exPosVendors 30 0 50 exInputs exStore "bb"
    (by norm_num [exCfg])
    (by
      intro v hvm
      simp only [exPosVendors, List.mem_singleton] at hvm
      subst hvm
      refine ⟨?_, by norm_num, by norm_num⟩
      intro p hp
      simp only [Option.some.injEq] at hp
      rw [← hp]
      norm_num)
